import Mathlib

/-!
Shallow embedding of the voice-translation pipeline (src/app.py).

External services (S3, AWS Transcribe, Gemini, Azure Translator, Azure
Speech) are modelled by explicit environment records carrying the outcome
each external call would produce; every app-level function is translated
from the source, with an explicit stage trace where a claim speaks about
which stages are invoked, and explicit state passing for the two module
globals current_session_id and current_english_text.
-/

namespace App

/-- Python truthiness of a string: empty strings are falsy. -/
def strTruthy (s : String) : Bool := s ≠ ""

/-- The whitespace set of str.strip() (ASCII part; the embedding only ever
applies it to ASCII examples). -/
def pyWhitespace (c : Char) : Bool :=
  c = ' ' || c = '\t' || c = '\n' || c = '\r' || c = '\x0B' || c = '\x0C'

/-- str.strip(): drop leading and trailing whitespace characters. -/
def pyStrip (s : String) : String :=
  String.mk (((s.data.dropWhile pyWhitespace).reverse.dropWhile pyWhitespace).reverse)

/-- Whether a string begins with the given text (str.startswith); the
failure convention of the two translation clients is a returned string
beginning with Error:. -/
def pyStartsWith (s p : String) : Bool := p.data.isPrefixOf s.data

/-- The combined check of app.py line 299: not source_text or not
source_text.strip(), for a present source_text. -/
def strBlank (s : String) : Bool := s = "" || pyStrip s = ""

/-- Model of dict.get(key, default) over an association list (app.py keeps
its language tables as dict literals). -/
def dictGet (m : List (String × String)) (k d : String) : String :=
  match m.find? (fun p => p.1 == k) with
  | some p => p.2
  | none => d

/-- SUPPORTED_INPUT_LANGUAGES from app.py lines 71-78. -/
def SUPPORTED_INPUT_LANGUAGES : List (String × String) :=
  [("te-IN", "Telugu"), ("hi-IN", "Hindi"), ("ta-IN", "Tamil"),
   ("en-US", "English"), ("ml-IN", "Malayalam"), ("kn-IN", "Kannada")]

/-- SUPPORTED_OUTPUT_LANGUAGES from app.py lines 81-92. -/
def SUPPORTED_OUTPUT_LANGUAGES : List (String × String) :=
  [("ta", "Tamil"), ("te", "Telugu"), ("hi", "Hindi"), ("ml", "Malayalam"),
   ("kn", "Kannada"), ("mr", "Marathi"), ("gu", "Gujarati"), ("bn", "Bengali"),
   ("pa", "Punjabi"), ("en", "English")]

/-- AZURE_TTS_VOICES from app.py lines 95-106. -/
def AZURE_TTS_VOICES : List (String × String) :=
  [("ta", "ta-IN-Pallavi"), ("te", "te-IN-Chitra"), ("hi", "hi-IN-Kalpana"),
   ("ml", "ml-IN-Sobhana"), ("kn", "kn-IN-Sapna"), ("mr", "mr-IN-Aarohi"),
   ("gu", "gu-IN-Niranjan"), ("bn", "bn-IN-Bashkar"), ("pa", "pa-IN-Baldev"),
   ("en", "en-US-Aria")]

/-- The two module globals holding the current session (app.py lines 65-66). -/
structure SessionState where
  current_session_id : Option String
  current_english_text : Option String
  deriving DecidableEq

/-- JSON responses produced by the route handlers: a status field that is
either error (with a message) or success (with the payload fields of the
respective route). -/
inductive Resp where
  | error (message : String)
  | stopSuccess (source_text english_text : String)
  | translateSuccess (translated_text target_language : String)
  | ttsSuccess (audio_url : String)
  deriving DecidableEq

/-- The status field of a response. -/
def Resp.status : Resp → String
  | .error _ => "error"
  | _ => "success"

/-- A WAV container as written by the wave module in stop_recording:
fixed header parameters plus the joined PCM frame bytes. -/
structure WavFile where
  nchannels : Nat
  sampwidth : Nat
  framerate : Nat
  frames : List UInt8
  deriving DecidableEq

/-- A file on disk as seen by wave.open: either a well-formed WAV container
(wave.open succeeds and the header fields are readable, which holds for any
file the wave module itself wrote, including a zero-frame one) or corrupt
data on which wave.open raises wave.Error. -/
inductive DiskFile where
  | wav (w : WavFile)
  | corrupt
  deriving DecidableEq

/-- validate_wav_file (app.py lines 108-118): wave.open inside a try block;
a successful parse returns True, a wave.Error returns False. -/
def validate_wav_file : DiskFile → Bool
  | .wav _ => true
  | .corrupt => false

/-- Status of an AWS Transcribe job as polled by transcribe_audio: the two
terminal states, or any non-terminal status string (IN_PROGRESS, QUEUED). -/
inductive JobStatus where
  | completed
  | failed
  | inProgress (label : String)
  deriving DecidableEq

/-- Whether a job status ends the polling loop (app.py lines 148, 167). -/
def terminalStatus : JobStatus → Bool
  | .completed => true
  | .failed => true
  | .inProgress _ => false

/-- Outcomes of the external calls made by transcribe_audio: whether
start_transcription_job raises, the job status returned by the i-th
get_transcription_job poll, and the fetched transcript payload
(Except models an exception from urlopen or json.loads; the payload is
none when the results/transcripts keys are absent or the list is empty,
mirroring the falsiness test on data at app.py line 155, and otherwise the
list of transcript strings). fuel bounds the unboundedly-often polling
loop so the embedding is total; the real loop has no bound. -/
structure TranscribeEnv where
  startOk : Bool
  statuses : Nat → JobStatus
  fetch : Except String (Option (List String))
  fuel : Nat

/-- Transcript extraction on COMPLETED (app.py lines 155-165): take the
first transcript string if the list is present and non-empty, then treat
an empty string as failure. -/
def extractTranscript : Option (List String) → Option String
  | some (t :: _) => if t = "" then none else some t
  | some [] => none
  | none => none

/-- The polling loop of transcribe_audio (app.py lines 143-172), indexed by
the poll number i; returns the transcription result together with the total
number of get_transcription_job calls performed, or none when the fuel ran
out (the real loop would still be polling). -/
def pollLoop (statuses : Nat → JobStatus) (fetch : Except String (Option (List String))) :
    Nat → Nat → Option (Option String × Nat)
  | 0, _ => none
  | fuel + 1, i =>
    match statuses i with
    | .completed =>
        some ((match fetch with
               | .error _ => none
               | .ok payload => extractTranscript payload), i + 1)
    | .failed => some (none, i + 1)
    | .inProgress _ => pollLoop statuses fetch fuel (i + 1)

/-- transcribe_audio (app.py lines 132-176): start the job (an exception
there is caught and yields None), then run the polling loop; any exception
inside the loop was already folded into the loop result. A none from the
loop means the fuel bound of the embedding was hit while the real loop
would still be polling; it is mapped to none here and every theorem that
uses the loop carries a fuel hypothesis large enough to avoid this case. -/
def transcribe_audio (env : TranscribeEnv) : Option String :=
  if env.startOk then
    match pollLoop env.statuses env.fetch env.fuel 0 with
    | some (r, _) => r
    | none => none
  else none

/-- SUPPORTED_INPUT_LANGUAGES.get(source_lang, "unknown language") as used
three times in the prompt f-string (app.py lines 185-188). -/
def inputDisplayName (source_lang : String) : String :=
  dictGet SUPPORTED_INPUT_LANGUAGES source_lang "unknown language"

/-- The part of the prompt f-string (app.py lines 184-192) before the
ontology content is spliced in; dn is the display name of the source
language. -/
def promptIntro (dn : String) : String :=
  "\n        I\x27ll give you an ontology file and a " ++ dn ++
  " text. The " ++ dn ++
  " text might have errors related to specific terms in the ontology.\n\n        First, analyze the ontology file to understand its domain and key terms.\n        Then, examine the " ++ dn ++
  " text for words that might be misused or misspelled based on context.\n        Finally, return ONLY the corrected English translation. Don\x27t include any explanations or additional text.\n\n        Ontology file:\n        "

/-- The full prompt f-string of correct_and_translate (app.py lines
184-195), literal whitespace included; note the fixed label before the
source text. -/
def buildPrompt (source_lang onto source_text : String) : String :=
  promptIntro (inputDisplayName source_lang) ++ onto ++
  "\n\n        Tamil text: " ++ source_text ++ "\n        "

/-- Outcomes of the external calls of correct_and_translate: the ontology
file read (content, or the message of the raised exception) and the Gemini
call as a function of the prompt sent (exception message, or none when the
response object has no text attribute, or the raw response text). -/
structure GeminiEnv where
  ontology : Except String String
  response : String → Except String (Option String)

/-- correct_and_translate (app.py lines 178-210): reads the ontology,
builds the prompt, calls the model once; a usable response is trimmed and
returned verbatim, no valid response yields a fixed sentinel string, any
exception is caught and converted into an Error-prefixed string. -/
def correct_and_translate (env : GeminiEnv) (source_text source_lang : String) : String :=
  match env.ontology with
  | .error e => "Error: " ++ e
  | .ok onto =>
    match env.response (buildPrompt source_lang onto source_text) with
    | .error e => "Error: " ++ e
    | .ok none => "Error: No valid translation received."
    | .ok (some t) => pyStrip t

/-- Outcome of the Azure Translator POST made by translate_to_target_language:
an exception message (transport or JSON extraction), or the HTTP status code
together with the text extracted from the first translation of the body. -/
structure AzureEnv where
  httpResult : Except String (Nat × String)

/-- translate_to_target_language (app.py lines 212-245): on HTTP 200 the
extracted translation is returned, on any other status a fixed sentinel,
and a caught exception is converted into an Error-prefixed string. -/
def translate_to_target_language (env : AzureEnv) (_english_text _target_lang : String) : String :=
  match env.httpResult with
  | .error e => "Error: " ++ e
  | .ok (code, extracted) =>
    if code = 200 then extracted else "Error: Translation failed."

/-- Outcome of the synchronous Azure speech synthesis call: completed,
canceled with details, some other failure reason, or a raised exception. -/
inductive SynthOutcome where
  | completed
  | canceled (reason details : String)
  | otherFailure (reason : String)
  | exn (msg : String)
  deriving DecidableEq

/-- External inputs of text_to_speech: the generated uuid4 for the output
filename and the synthesis outcome. -/
structure TTSEnv where
  freshId : String
  outcome : SynthOutcome

/-- AZURE_TTS_VOICES.get(target_lang, "en-US-Aria") (app.py line 252). -/
def ttsVoice (target_lang : String) : String :=
  dictGet AZURE_TTS_VOICES target_lang "en-US-Aria"

/-- text_to_speech (app.py lines 247-278): returns the relative URL of the
synthesized file on completion and none on any failure, cancellation or
exception; the second component records the synthesis voice configured at
line 252. -/
def text_to_speech (env : TTSEnv) (_text target_lang : String) : Option String × String :=
  let voice := ttsVoice target_lang
  match env.outcome with
  | .completed => (some ("/static/audio/output_" ++ env.freshId ++ ".wav"), voice)
  | .canceled _ _ => (none, voice)
  | .otherFailure _ => (none, voice)
  | .exn _ => (none, voice)

/-- The pipeline stages of process_audio, in the order the code runs them. -/
inductive Stage where
  | validate
  | upload
  | transcribe
  | correct
  deriving DecidableEq

/-- External inputs of one process_audio run: the uuid4 generated as the
new session id, the S3 upload outcome, and the environments of the
transcription and correction stages. -/
structure ProcessEnv where
  freshId : String
  uploadOk : Bool
  tEnv : TranscribeEnv
  gEnv : GeminiEnv

/-- process_audio (app.py lines 280-318): validate, set the new session id,
upload, transcribe, correct-translate; each failing stage returns its error
dict at once. The third component is the list of stages that were invoked. -/
def process_audio (env : ProcessEnv) (file : DiskFile) (input_language : String)
    (st : SessionState) : Resp × SessionState × List Stage :=
  if validate_wav_file file = false then
    (.error "Invalid WAV file", st, [.validate])
  else
    let st1 : SessionState := { st with current_session_id := some env.freshId }
    if env.uploadOk = false then
      (.error "Failed to upload to S3", st1, [.validate, .upload])
    else
      match transcribe_audio env.tEnv with
      | none => (.error "Transcription failed", st1, [.validate, .upload, .transcribe])
      | some s =>
        if strBlank s then
          (.error "Transcription failed", st1, [.validate, .upload, .transcribe])
        else
          let e := correct_and_translate env.gEnv s input_language
          if e = "" then
            (.error "Translation to English failed", st1,
             [.validate, .upload, .transcribe, .correct])
          else
            (.stopSuccess s e, { st1 with current_english_text := some e },
             [.validate, .upload, .transcribe, .correct])

/-- The local files visible to the app, keyed by path. -/
def FileStore := String → Option DiskFile

/-- The fixed output path used by stop_recording (app.py line 369). -/
def recordedAudioPath : String := "uploads/recorded_audio.wav"

/-- stop_recording (app.py lines 362-388): serialize the captured frames to
a WAV file at the fixed path (mono, sample width 2, 44100 Hz), overwriting
whatever was there, then run process_audio on that file and return its
result as the response. -/
def stop_recording (env : ProcessEnv) (audio_frames : List (List UInt8))
    (input_language : String) (fs : FileStore) (st : SessionState) :
    Resp × SessionState × FileStore × List Stage :=
  let wf : WavFile := { nchannels := 1, sampwidth := 2, framerate := 44100,
                        frames := audio_frames.flatten }
  let fs2 : FileStore := fun p => if p = recordedAudioPath then some (.wav wf) else fs p
  let out := process_audio env (.wav wf) input_language st
  (out.1, out.2.1, fs2, out.2.2)

/-- translate_to_language route (app.py lines 390-415): guard on the session
English text, then on the target language, then call the Azure client. The
third component records the arguments of the Azure client call when it was
made (none when it was never invoked). -/
def translate_to_language (env : AzureEnv) (target_language : Option String)
    (st : SessionState) : Resp × SessionState × Option (String × String) :=
  match st.current_english_text with
  | none => (.error "No English text available for translation", st, none)
  | some et =>
    if et = "" then (.error "No English text available for translation", st, none)
    else
      match target_language with
      | none => (.error "No target language specified", st, none)
      | some tl =>
        if tl = "" then (.error "No target language specified", st, none)
        else
          let t := translate_to_target_language env et tl
          if t = "" then (.error "Translation failed", st, some (et, tl))
          else
            (.translateSuccess t (dictGet SUPPORTED_OUTPUT_LANGUAGES tl tl), st,
             some (et, tl))

/-- text_to_speech_route (app.py lines 417-439): guard on both fields being
present and truthy, then call text_to_speech and wrap its result. -/
def text_to_speech_route (env : TTSEnv) (text target_language : Option String)
    (st : SessionState) : Resp × SessionState :=
  match text, target_language with
  | some t, some l =>
    if t = "" || l = "" then (.error "Text and target language are required", st)
    else
      match (text_to_speech env t l).1 with
      | some u => (.ttsSuccess u, st)
      | none => (.error "Text-to-speech conversion failed", st)
  | _, _ => (.error "Text and target language are required", st)

/-- dict.get falls back to the default when no entry of the list has the
requested key. -/
theorem dictGet_default (m : List (String × String)) (k d : String)
    (h : (m.all fun p => p.1 != k) = true) : dictGet m k d = d := by
  unfold dictGet
  have hn : m.find? (fun p => p.1 == k) = none := by
    rw [List.find?_eq_none]
    intro x hx
    simpa using List.all_eq_true.mp h x hx
  rw [hn]

/-- C7: a translate-to-language request made while the session English text
is unset answers with the fixed no-English-text error, whatever the target
language field holds; the missing-target check is never reached and the
Azure client is never invoked (call trace is none), and the state is
unchanged. -/
theorem C7_no_english_text (env : AzureEnv) (tl : Option String) (st : SessionState)
    (h : st.current_english_text = none) :
    translate_to_language env tl st =
      (.error "No English text available for translation", st, none) := by
  unfold translate_to_language
  rw [h]

/-- C7 witness: concrete fresh session, target language present, HTTP layer
ready to answer 200. -/
theorem C7_no_english_text_witness :
    translate_to_language ⟨.ok (200, "bonjour")⟩ (some "hi") ⟨none, none⟩ =
      (.error "No English text available for translation", ⟨none, none⟩, none) :=
  C7_no_english_text ⟨.ok (200, "bonjour")⟩ (some "hi") ⟨none, none⟩ rfl

/-- C8: the prompt of correct_and_translate is the concatenation of the
language-parametric intro (which holds the ontology content and the display
name of the source language, with the fallback display name for codes
outside the table) followed by a source-text label that is the literal
string Tamil text: for every source language. -/
theorem C8_prompt_shape (lang onto text : String) :
    buildPrompt lang onto text =
      promptIntro (inputDisplayName lang) ++ onto ++
        "\n\n        Tamil text: " ++ text ++ "\n        "
    ∧ inputDisplayName "ta-IN" = "Tamil"
    ∧ ((SUPPORTED_INPUT_LANGUAGES.all fun p => p.1 != lang) = true →
        inputDisplayName lang = "unknown language") :=
  ⟨rfl, by decide, fun h => dictGet_default _ _ _ h⟩

/-- C8 witness: a language code outside the input table falls back to the
unknown-language display name, while ta-IN maps to Tamil. -/
theorem C8_prompt_shape_witness :
    inputDisplayName "fr-FR" = "unknown language" ∧ inputDisplayName "ta-IN" = "Tamil" :=
  ⟨(C8_prompt_shape "fr-FR" "onto" "txt").2.2 (by decide),
   (C8_prompt_shape "fr-FR" "onto" "txt").2.1⟩

/-- C9: text_to_speech configures the synthesis voice from the static voice
table with default en-US-Aria, returns the relative URL
/static/audio/output_(uuid).wav exactly when synthesis completed, and
returns none (never a sentinel string) on cancellation, failure or
exception. -/
theorem C9_tts_result (env : TTSEnv) (text tl : String) :
    (text_to_speech env text tl).2 = ttsVoice tl
    ∧ (env.outcome = .completed →
        (text_to_speech env text tl).1 =
          some ("/static/audio/output_" ++ env.freshId ++ ".wav"))
    ∧ (env.outcome ≠ .completed → (text_to_speech env text tl).1 = none)
    ∧ ((AZURE_TTS_VOICES.all fun p => p.1 != tl) = true → ttsVoice tl = "en-US-Aria") := by
  cases env with
  | mk fid oc =>
    cases oc with
    | completed =>
        exact ⟨rfl, fun _ => rfl, fun h => absurd rfl h, fun h => dictGet_default _ _ _ h⟩
    | canceled r d =>
        exact ⟨rfl, fun h => SynthOutcome.noConfusion h, fun _ => rfl,
               fun h => dictGet_default _ _ _ h⟩
    | otherFailure r =>
        exact ⟨rfl, fun h => SynthOutcome.noConfusion h, fun _ => rfl,
               fun h => dictGet_default _ _ _ h⟩
    | exn m =>
        exact ⟨rfl, fun h => SynthOutcome.noConfusion h, fun _ => rfl,
               fun h => dictGet_default _ _ _ h⟩

/-- C9 witness: a canceled synthesis for an unmapped target language yields
none and would have used the default voice. -/
theorem C9_tts_result_witness :
    (text_to_speech ⟨"u1", .canceled "r" "d"⟩ "hello" "fr").1 = none
    ∧ ttsVoice "fr" = "en-US-Aria" :=
  ⟨(C9_tts_result ⟨"u1", .canceled "r" "d"⟩ "hello" "fr").2.2.1 (by decide),
   (C9_tts_result ⟨"u1", .canceled "r" "d"⟩ "hello" "fr").2.2.2 (by decide)⟩

/-- C10: stopping with an empty frame buffer still writes a zero-frame WAV
container to the fixed upload path (overwriting whatever any prior file
store held there), that file passes validate_wav_file, and the pipeline is
entered: the validate and upload stages are invoked with no empty-recording
guard in between. -/
theorem C10_empty_recording (env : ProcessEnv) (fs : FileStore) (st : SessionState)
    (lang : String) :
    (stop_recording env [] lang fs st).2.2.1 recordedAudioPath
        = some (.wav { nchannels := 1, sampwidth := 2, framerate := 44100, frames := [] })
    ∧ validate_wav_file
        (.wav { nchannels := 1, sampwidth := 2, framerate := 44100, frames := [] }) = true
    ∧ Stage.validate ∈ (stop_recording env [] lang fs st).2.2.2
    ∧ Stage.upload ∈ (stop_recording env [] lang fs st).2.2.2 := by
  refine ⟨by simp [stop_recording], rfl, ?_, ?_⟩ <;>
  · show _ ∈ (process_audio env _ lang st).2.2
    unfold process_audio
    split
    · simp_all [validate_wav_file]
    · split
      · simp
      · split
        · simp
        · split
          · simp
          · dsimp only
            split <;> simp

/-- The value the polling loop returns when it stops at poll index j: the
FAILED branch yields none, the COMPLETED branch extracts from the fetched
payload (an exception during the fetch also yields none). -/
def pollResultAt (statuses : Nat → JobStatus) (fetch : Except String (Option (List String)))
    (j : Nat) : Option String :=
  match statuses j with
  | .completed =>
      match fetch with
      | .error _ => none
      | .ok payload => extractTranscript payload
  | .failed => none
  | .inProgress _ => none

/-- The polling loop stops at the first terminal index and reports exactly
that many polls: starting at index i, if the next terminal status lies d
steps ahead and the fuel covers it, the loop answers at index i + d having
performed i + d + 1 polls in total. -/
theorem pollLoop_first_terminal (statuses : Nat → JobStatus)
    (fetch : Except String (Option (List String))) :
    ∀ (d fuel i : Nat), d < fuel →
      terminalStatus (statuses (i + d)) = true →
      (∀ k, k < d → terminalStatus (statuses (i + k)) = false) →
      pollLoop statuses fetch fuel i =
        some (pollResultAt statuses fetch (i + d), i + d + 1) := by
  intro d
  induction d with
  | zero =>
    intro fuel i hlt hterm _
    cases fuel with
    | zero => omega
    | succ f =>
      rw [Nat.add_zero] at hterm ⊢
      cases h : statuses i with
      | completed => simp [pollLoop, pollResultAt, h]
      | failed => simp [pollLoop, pollResultAt, h]
      | inProgress lbl => rw [h] at hterm; simp [terminalStatus] at hterm
  | succ d ih =>
    intro fuel i hlt hterm hmin
    cases fuel with
    | zero => omega
    | succ f =>
      have h0 : terminalStatus (statuses i) = false := by
        have := hmin 0 (Nat.succ_pos d)
        simpa using this
      cases h : statuses i with
      | completed => rw [h] at h0; simp [terminalStatus] at h0
      | failed => rw [h] at h0; simp [terminalStatus] at h0
      | inProgress lbl =>
        have harith : i + 1 + d = i + (d + 1) := by omega
        have hrec := ih f (i + 1) (by omega)
          (by rw [harith]; exact hterm)
          (fun k hk => by
            have := hmin (k + 1) (by omega)
            have harith2 : i + (k + 1) = i + 1 + k := by omega
            rw [harith2] at this
            exact this)
        rw [harith] at hrec
        simpa [pollLoop, h] using hrec

/-- C4: every execution of the transcription polling loop returns at
exactly the first poll whose job status is terminal (COMPLETED or FAILED):
when the first terminal status appears at poll index j (all earlier polls
being non-terminal) and the fuel bound of the embedding covers it, the loop
result is determined at index j and the total number of status polls
performed is j + 1, i.e. no poll happens after the terminal state. -/
theorem C4_poll_stops_at_first_terminal (env : TranscribeEnv) (j : Nat)
    (hterm : terminalStatus (env.statuses j) = true)
    (hmin : ∀ k, k < j → terminalStatus (env.statuses k) = false)
    (hfuel : j < env.fuel) :
    pollLoop env.statuses env.fetch env.fuel 0 =
      some (pollResultAt env.statuses env.fetch j, j + 1) := by
  have := pollLoop_first_terminal env.statuses env.fetch j env.fuel 0 hfuel
    (by simpa using hterm) (fun k hk => by simpa using hmin k hk)
  simpa using this

/-- C4 witness: two IN_PROGRESS polls followed by COMPLETED on the third
poll; the loop answers the transcript after exactly three polls. -/
theorem C4_poll_stops_at_first_terminal_witness :
    pollLoop (fun n => if n < 2 then JobStatus.inProgress "IN_PROGRESS" else .completed)
        (.ok (some ["hi"])) 5 0 = some (some "hi", 3) :=
  (C4_poll_stops_at_first_terminal
      ⟨true, fun n => if n < 2 then JobStatus.inProgress "IN_PROGRESS" else .completed,
       .ok (some ["hi"]), 5⟩ 2
      (by decide) (by decide) (by decide)).trans (by decide)

/-- Sample transcription environment: job completes on the first poll with
transcript hello. -/
def sampleTEnv : TranscribeEnv :=
  { startOk := true, statuses := fun _ => .completed, fetch := .ok (some ["hello"]),
    fuel := 1 }

/-- Sample Gemini environment: the model answers with usable text. -/
def sampleGEnv : GeminiEnv :=
  { ontology := .ok "ONT", response := fun _ => .ok (some "good text") }

/-- Sample WAV file as written by stop_recording from one captured chunk. -/
def sampleWav : WavFile :=
  { nchannels := 1, sampwidth := 2, framerate := 44100, frames := [0, 1] }

/-- Sample pipeline environment in which every stage succeeds. -/
def sampleEnv : ProcessEnv :=
  { freshId := "id-new", uploadOk := true, tEnv := sampleTEnv, gEnv := sampleGEnv }

/-- Pipeline environment whose S3 upload fails. -/
def failUploadEnv : ProcessEnv :=
  { freshId := "id-new", uploadOk := false, tEnv := sampleTEnv, gEnv := sampleGEnv }

/-- C2: the stage trace of process_audio is always a prefix of the fixed
order validate, upload, transcribe, correct; when validation fails the
trace stops at validate and upload is never invoked; when the upload fails
the trace stops at upload, transcription and correction are never invoked
and the response is the upload error. -/
theorem C2_fail_fast (env : ProcessEnv) (file : DiskFile) (lang : String)
    (st : SessionState) :
    (∃ k, (process_audio env file lang st).2.2 =
        [Stage.validate, Stage.upload, Stage.transcribe, Stage.correct].take k)
    ∧ (validate_wav_file file = false →
        (process_audio env file lang st).2.2 = [Stage.validate]
        ∧ Stage.upload ∉ (process_audio env file lang st).2.2)
    ∧ (validate_wav_file file = true → env.uploadOk = false →
        (process_audio env file lang st).2.2 = [Stage.validate, Stage.upload]
        ∧ Stage.transcribe ∉ (process_audio env file lang st).2.2
        ∧ Stage.correct ∉ (process_audio env file lang st).2.2
        ∧ (process_audio env file lang st).1 = Resp.error "Failed to upload to S3") := by
  refine ⟨?_, ?_, ?_⟩
  · unfold process_audio
    split
    · exact ⟨1, rfl⟩
    · split
      · exact ⟨2, rfl⟩
      · split
        · exact ⟨3, rfl⟩
        · split
          · exact ⟨3, rfl⟩
          · dsimp only
            split
            · exact ⟨4, rfl⟩
            · exact ⟨4, rfl⟩
  · intro hv
    simp [process_audio, hv]
  · intro hv hu
    simp [process_audio, hv, hu]

/-- C2 witness: a corrupt file stops the pipeline at the validate stage,
and a failing upload stops it at the upload stage with the upload error. -/
theorem C2_fail_fast_witness :
    ((process_audio failUploadEnv DiskFile.corrupt "te-IN" ⟨none, none⟩).2.2
        = [Stage.validate])
    ∧ ((process_audio failUploadEnv (.wav sampleWav) "te-IN" ⟨none, none⟩).2.2
        = [Stage.validate, Stage.upload])
    ∧ ((process_audio failUploadEnv (.wav sampleWav) "te-IN" ⟨none, none⟩).1
        = Resp.error "Failed to upload to S3") :=
  ⟨((C2_fail_fast failUploadEnv .corrupt "te-IN" ⟨none, none⟩).2.1 (by decide)).1,
   ((C2_fail_fast failUploadEnv (.wav sampleWav) "te-IN" ⟨none, none⟩).2.2
      (by decide) (by decide)).1,
   ((C2_fail_fast failUploadEnv (.wav sampleWav) "te-IN" ⟨none, none⟩).2.2
      (by decide) (by decide)).2.2.2⟩

/-- C5 counterexample: with an old session in place and a failing upload,
process_audio reports the upload error but the resulting session state is
not the state from before the call: current_session_id was already
overwritten with the fresh session id of the failed run at app.py line 290,
before the upload was attempted. -/
theorem C5_counterexample :
    ((process_audio failUploadEnv (.wav sampleWav) "te-IN"
        ⟨some "id-old", some "old text"⟩).1 = Resp.error "Failed to upload to S3")
    ∧ ((process_audio failUploadEnv (.wav sampleWav) "te-IN"
        ⟨some "id-old", some "old text"⟩).2.1
        ≠ (⟨some "id-old", some "old text"⟩ : SessionState))
    ∧ ((process_audio failUploadEnv (.wav sampleWav) "te-IN"
        ⟨some "id-old", some "old text"⟩).2.1.current_session_id = some "id-new") := by
  decide

/-- C5 amended: on any error result process_audio leaves
current_english_text unchanged (no partial English text is kept), and a
validation failure leaves the whole session state untouched; but as soon as
validation passes, current_session_id is overwritten with the fresh id of
the run, so a failure of upload, transcription or correction does preserve
the failed runs session id. -/
theorem C5_amended_failure_state (env : ProcessEnv) (file : DiskFile) (lang : String)
    (st : SessionState) :
    ((process_audio env file lang st).1.status = "error" →
        (process_audio env file lang st).2.1.current_english_text
          = st.current_english_text)
    ∧ (validate_wav_file file = false → (process_audio env file lang st).2.1 = st)
    ∧ (validate_wav_file file = true →
        (process_audio env file lang st).2.1.current_session_id = some env.freshId) := by
  unfold process_audio
  split
  · refine ⟨fun _ => rfl, fun _ => rfl, fun hv => ?_⟩
    simp_all
  · split
    · exact ⟨fun _ => rfl, fun hf => by simp_all, fun _ => rfl⟩
    · split
      · exact ⟨fun _ => rfl, fun hf => by simp_all, fun _ => rfl⟩
      · split
        · exact ⟨fun _ => rfl, fun hf => by simp_all, fun _ => rfl⟩
        · dsimp only
          split
          · exact ⟨fun _ => rfl, fun hf => by simp_all, fun _ => rfl⟩
          · refine ⟨fun hst => ?_, fun hf => by simp_all, fun _ => rfl⟩
            simp [Resp.status] at hst

/-- C5 amended witness: the failing-upload run keeps the old English text
but holds the new session id. -/
theorem C5_amended_failure_state_witness :
    ((process_audio failUploadEnv (.wav sampleWav) "te-IN"
        ⟨some "id-old", some "old text"⟩).2.1.current_english_text = some "old text")
    ∧ ((process_audio failUploadEnv (.wav sampleWav) "te-IN"
        ⟨some "id-old", some "old text"⟩).2.1.current_session_id = some "id-new") :=
  ⟨(C5_amended_failure_state failUploadEnv (.wav sampleWav) "te-IN"
      ⟨some "id-old", some "old text"⟩).1 (by decide),
   (C5_amended_failure_state failUploadEnv (.wav sampleWav) "te-IN"
      ⟨some "id-old", some "old text"⟩).2.2 (by decide)⟩

/-- C6: when the transcription job completes and the extracted first
transcript trims to nothing, the pipeline responds with exactly the
Transcription failed error; in the empty-string case transcribe_audio
itself already returns none, while a whitespace-only transcript is caught
by the strip check of process_audio. -/
theorem C6_empty_transcript (env : ProcessEnv) (t : String) (rest : List String)
    (w : WavFile) (lang : String) (st : SessionState)
    (hs : env.tEnv.startOk = true)
    (h0 : env.tEnv.statuses 0 = .completed)
    (hf : 0 < env.tEnv.fuel)
    (hp : env.tEnv.fetch = .ok (some (t :: rest)))
    (hb : pyStrip t = "")
    (hu : env.uploadOk = true) :
    (t = "" → transcribe_audio env.tEnv = none)
    ∧ (process_audio env (.wav w) lang st).1 = .error "Transcription failed" := by
  obtain ⟨f, hfe⟩ : ∃ f, env.tEnv.fuel = f + 1 := ⟨env.tEnv.fuel - 1, by omega⟩
  have hpl : pollLoop env.tEnv.statuses env.tEnv.fetch env.tEnv.fuel 0 =
      some (extractTranscript (some (t :: rest)), 1) := by
    rw [hfe]
    simp [pollLoop, h0, hp]
  have hta : transcribe_audio env.tEnv = if t = "" then none else some t := by
    unfold transcribe_audio
    rw [hs]
    simp [hpl, extractTranscript]
  constructor
  · intro ht
    rw [hta, if_pos ht]
  · by_cases ht : t = ""
    · simp [process_audio, validate_wav_file, hu, hta, ht]
    · simp [process_audio, validate_wav_file, hu, hta, ht, strBlank, hb]

/-- C6 witness: a completed job whose only transcript is the empty string
makes transcribe_audio answer none and the pipeline answer the
Transcription failed error. -/
theorem C6_empty_transcript_witness :
    transcribe_audio ⟨true, fun _ => .completed, .ok (some [""]), 1⟩ = none
    ∧ (process_audio ⟨"id1", true, ⟨true, fun _ => .completed, .ok (some [""]), 1⟩,
          sampleGEnv⟩ (.wav sampleWav) "ta-IN" ⟨none, none⟩).1
        = .error "Transcription failed" :=
  ⟨(C6_empty_transcript ⟨"id1", true, ⟨true, fun _ => .completed, .ok (some [""]), 1⟩,
      sampleGEnv⟩ "" [] sampleWav "ta-IN" ⟨none, none⟩
      rfl rfl (by decide) rfl (by decide) rfl).1 rfl,
   (C6_empty_transcript ⟨"id1", true, ⟨true, fun _ => .completed, .ok (some [""]), 1⟩,
      sampleGEnv⟩ "" [] sampleWav "ta-IN" ⟨none, none⟩
      rfl rfl (by decide) rfl (by decide) rfl).2⟩

/-- A string that starts with the Error: sentinel is non-empty. -/
theorem sentinel_ne_empty (s : String) (h : pyStartsWith s "Error:" = true) : s ≠ "" := by
  intro he
  rw [he] at h
  exact absurd h (by decide)

/-- Gemini environment whose call raises, producing the Error: sentinel. -/
def errGEnv : GeminiEnv :=
  { ontology := .ok "ONT", response := fun _ => .error "boom" }

/-- Pipeline environment whose correction stage yields the Error: sentinel. -/
def errCorrectEnv : ProcessEnv :=
  { freshId := "id-new", uploadOk := true, tEnv := sampleTEnv, gEnv := errGEnv }

/-- C1 counterexample: the correction stage fails and signals it with a
string starting with Error:, yet process_audio answers with status success
carrying the sentinel as the English text; likewise the secondary
translation stage fails with the sentinel, yet the translate route answers
with status success carrying the sentinel as the translated text. -/
theorem C1_counterexample :
    (pyStartsWith (correct_and_translate errGEnv "hello" "te-IN") "Error:" = true)
    ∧ ((process_audio errCorrectEnv (.wav sampleWav) "te-IN" ⟨none, none⟩).1
        = Resp.stopSuccess "hello" "Error: boom")
    ∧ (((process_audio errCorrectEnv (.wav sampleWav) "te-IN" ⟨none, none⟩).1).status
        = "success")
    ∧ (pyStartsWith (translate_to_target_language ⟨.ok (500, "irrelevant")⟩ "good" "hi")
        "Error:" = true)
    ∧ ((translate_to_language ⟨.ok (500, "irrelevant")⟩ (some "hi")
        ⟨some "sid", some "good"⟩).1
        = Resp.translateSuccess "Error: Translation failed." "Hindi")
    ∧ (((translate_to_language ⟨.ok (500, "irrelevant")⟩ (some "hi")
        ⟨some "sid", some "good"⟩).1).status = "success") := by
  decide

/-- C1 amended: when the correction stage or the secondary translation
stage signals failure by returning a string beginning with Error:, the
response has status success and carries the sentinel string as the
translated text (the sentinel is non-empty, so the truthiness checks at
app.py lines 304 and 404 accept it); a stage result only yields status
error there when it is the empty string. -/
theorem C1_amended_sentinel_as_success :
    (∀ (env : ProcessEnv) (w : WavFile) (lang : String) (st : SessionState) (s e : String),
      env.uploadOk = true →
      transcribe_audio env.tEnv = some s →
      strBlank s = false →
      correct_and_translate env.gEnv s lang = e →
      pyStartsWith e "Error:" = true →
      (process_audio env (.wav w) lang st).1 = Resp.stopSuccess s e
      ∧ ((process_audio env (.wav w) lang st).1).status = "success")
    ∧ (∀ (env : AzureEnv) (tl et r : String) (st : SessionState),
      st.current_english_text = some et → et ≠ "" → tl ≠ "" →
      translate_to_target_language env et tl = r →
      pyStartsWith r "Error:" = true →
      (translate_to_language env (some tl) st).1 =
        Resp.translateSuccess r (dictGet SUPPORTED_OUTPUT_LANGUAGES tl tl)
      ∧ ((translate_to_language env (some tl) st).1).status = "success") := by
  constructor
  · intro env w lang st s e hu hta hsb hce hse
    have he : e ≠ "" := sentinel_ne_empty e hse
    constructor <;>
      simp [process_audio, validate_wav_file, hu, hta, hsb, hce, he, Resp.status]
  · intro env tl et r st het hne htl htr hsr
    have hr : r ≠ "" := sentinel_ne_empty r hsr
    constructor <;>
      simp [translate_to_language, het, hne, htl, htr, hr, Resp.status]

/-- C1 amended witness: the concrete failing correction run is reported as
success with the sentinel. -/
theorem C1_amended_sentinel_as_success_witness :
    (process_audio errCorrectEnv (.wav sampleWav) "te-IN" ⟨some "sid", none⟩).1
        = Resp.stopSuccess "hello" "Error: boom"
    ∧ ((translate_to_language ⟨.error "offline"⟩ (some "ta")
        ⟨some "sid", some "good"⟩).1).status = "success" :=
  ⟨(C1_amended_sentinel_as_success.1 errCorrectEnv sampleWav "te-IN" ⟨some "sid", none⟩
      "hello" "Error: boom" rfl (by decide) (by decide) (by decide) (by decide)).1,
   (C1_amended_sentinel_as_success.2 ⟨.error "offline"⟩ "ta" "good" "Error: offline"
      ⟨some "sid", some "good"⟩ rfl (by decide) (by decide) (by decide) (by decide)).2⟩

/-- C3: the translate route and the text-to-speech route never change the
session state; a successful process_audio run stores exactly the English
text it reports; and every translate call made while the session holds
English text et passes exactly (et, target) to the Azure client. -/
theorem C3_session_text_stable :
    (∀ (env : AzureEnv) (tl : Option String) (st : SessionState),
        (translate_to_language env tl st).2.1 = st)
    ∧ (∀ (env : TTSEnv) (text tgt : Option String) (st : SessionState),
        (text_to_speech_route env text tgt st).2 = st)
    ∧ (∀ (env : ProcessEnv) (file : DiskFile) (lang : String) (st : SessionState)
          (s e : String),
        (process_audio env file lang st).1 = Resp.stopSuccess s e →
        (process_audio env file lang st).2.1.current_english_text = some e)
    ∧ (∀ (env : AzureEnv) (tl et : String) (st : SessionState),
        st.current_english_text = some et → et ≠ "" → tl ≠ "" →
        (translate_to_language env (some tl) st).2.2 = some (et, tl)) := by
  refine ⟨?_, ?_, ?_, ?_⟩
  · intro env tl st
    unfold translate_to_language
    split
    · rfl
    · split
      · rfl
      · split
        · rfl
        · split
          · rfl
          · dsimp only
            split <;> rfl
  · intro env text tgt st
    unfold text_to_speech_route
    split
    · split
      · rfl
      · split <;> rfl
    · rfl
  · intro env file lang st s e h
    by_cases hv : validate_wav_file file = false
    · simp [process_audio, hv] at h
    · by_cases hu : env.uploadOk = false
      · simp [process_audio, hv, hu] at h
      · rcases hta : transcribe_audio env.tEnv with _ | s2
        · simp [process_audio, hv, hu, hta] at h
        · by_cases hsb : strBlank s2 = true
          · simp [process_audio, hv, hu, hta, hsb] at h
          · by_cases hce : correct_and_translate env.gEnv s2 lang = ""
            · simp [process_audio, hv, hu, hta, hsb, hce] at h
            · simp only [process_audio, hv, hu, hta, hsb, hce] at h ⊢
              simp at h
              simp [h.2]
  · intro env tl et st het hne htl
    simp only [translate_to_language, het]
    simp [hne, htl]
    split <;> rfl

/-- C3 witness: a successful pipeline run stores its English text; a
later translate call passes exactly that text to the Azure client and
leaves the state unchanged, as does a text-to-speech call. -/
theorem C3_session_text_stable_witness :
    (process_audio sampleEnv (.wav sampleWav) "te-IN" ⟨none, none⟩).2.1.current_english_text
        = some "good text"
    ∧ (translate_to_language ⟨.ok (200, "hola")⟩ (some "hi")
        ⟨some "sid", some "good text"⟩).2.2 = some ("good text", "hi")
    ∧ (translate_to_language ⟨.ok (200, "hola")⟩ (some "hi")
        ⟨some "sid", some "good text"⟩).2.1 = ⟨some "sid", some "good text"⟩
    ∧ (text_to_speech_route ⟨"u2", .completed⟩ (some "hola") (some "hi")
        ⟨some "sid", some "good text"⟩).2 = ⟨some "sid", some "good text"⟩ :=
  ⟨C3_session_text_stable.2.2.1 sampleEnv (.wav sampleWav) "te-IN" ⟨none, none⟩
      "hello" "good text" (by decide),
   C3_session_text_stable.2.2.2 ⟨.ok (200, "hola")⟩ "hi" "good text"
      ⟨some "sid", some "good text"⟩ rfl (by decide) (by decide),
   C3_session_text_stable.1 ⟨.ok (200, "hola")⟩ (some "hi") ⟨some "sid", some "good text"⟩,
   C3_session_text_stable.2.1 ⟨"u2", .completed⟩ (some "hola") (some "hi")
      ⟨some "sid", some "good text"⟩⟩

end App
